import Mathlib

set_option linter.unusedVariables false

/-!
Shallow embedding of `mialab/filtering/preprocessing.py` (MIALab preprocessing
filter catalog) and proofs about its claims.

Modelling conventions:
* Voxel intensities are idealized as real numbers (the source computes with
  numpy floating point; rounding is not modelled).  The numpy dtype / sitk
  pixel id of an image is recorded separately in the `pixelType` field, so
  that casts such as `astype(np.float32)` and `sitk.sitkUInt8` are visible.
* An image carries its voxel array (flattened), its spatial metadata
  (origin, spacing, direction) and an object identifier `uid`.  Every
  operation of the source that allocates a new image object produces an
  image whose `uid` differs from its input (modelled as `uid + 1`); the
  operations used by the source are all out-of-place (`GetArrayFromImage`
  returns a copy, numpy arithmetic allocates fresh arrays, `CopyInformation`
  writes only its receiver), hence the embedding is pure and the input image
  is never written.
* Python exceptions are modelled with `Except PyErr`; configuration numbers
  are rationals (floats idealized) or integers, so tests on them are
  decidable.
* The file system (used by the IRS filter for pickling its model) is an
  association list from paths to pickle blobs; a pickle blob is a faithful
  serialization of the model.  Python file handles carry their mode (text or
  binary): `pickle.load` demands a binary-mode file and raises `TypeError`
  on a text-mode one.
-/

/-- Spatial metadata of an image: origin, spacing and direction cosines,
as propagated by `CopyInformation`. Components idealized as rationals. -/
structure SpatialInfo where
  origin : List ℚ
  spacing : List ℚ
  direction : List ℚ
  deriving DecidableEq, Repr

/-- The metadata a freshly constructed `sitk.Image` carries: zero origin,
unit spacing, identity direction. -/
def defaultSpatialInfo : SpatialInfo :=
  ⟨[0, 0, 0], [1, 1, 1], [1, 0, 0, 0, 1, 0, 0, 0, 1]⟩

/-- Pixel type of an image: `float32` after `astype(np.float32)`,
`uint8` for `sitk.sitkUInt8` and Otsu masks, `native` otherwise. -/
inductive PixelType where
  | float32
  | uint8
  | native
  deriving DecidableEq, Repr

/-- An image: object identity `uid`, flattened voxel data, spatial
metadata and pixel type. -/
structure Image where
  uid : Nat
  data : List ℝ
  meta : SpatialInfo
  pixelType : PixelType

/-- Python exceptions raised (or propagated) by the source. -/
inductive PyErr where
  | valueError (msg : String)
  | typeError (msg : String)
  | runtimeError (msg : String)
  | fileNotFoundError (path : String)
  deriving DecidableEq, Repr

/-- The numpy view `sitk.GetArrayFromImage(image)`: a copy of the voxel
data (sitk returns a fresh array, so the image is not aliased). -/
def GetArrayFromImage (image : Image) : List ℝ :=
  image.data

/-- The image `sitk.GetImageFromArray(arr)`: a fresh image object holding
the array, with default spatial metadata; `pt` records the array dtype and
`uid` the fresh object identity chosen by the caller. -/
def GetImageFromArray (arr : List ℝ) (pt : PixelType) (uid : Nat) : Image :=
  ⟨uid, arr, defaultSpatialInfo, pt⟩

/-- The constructor call `sitk.Image(arr, pixel_id)` with a numpy array
argument: SimpleITK has no from-array `Image` constructor (its constructors
take sizes and a pixel id; arrays are converted with `GetImageFromArray`),
so overload resolution fails and the call raises `TypeError`.  No image is
ever produced by this call. -/
def sitkImage (arr : List ℝ) (pt : PixelType) : Except PyErr Image :=
  Except.error (PyErr.typeError "no matching Image constructor for an ndarray argument")

/-- The method `dst.CopyInformation(src)`: writes the spatial metadata of
`src` into `dst` and returns the updated `dst`; `src` is only read. -/
def Image.CopyInformation (dst src : Image) : Image :=
  ⟨dst.uid, dst.data, src.meta, dst.pixelType⟩

noncomputable section

/-- The external cast `sitk.Cast(image, pixel_id)`: fresh image, same data
(value change of the cast is not modelled), same metadata, new pixel type. -/
def sitkCast (image : Image) (pt : PixelType) : Image :=
  ⟨image.uid + 1, image.data, image.meta, pt⟩

/-- Mean of a numpy array, `arr.mean()`: sum divided by length. -/
def npMean (xs : List ℝ) : ℝ :=
  xs.sum / xs.length

/-- Population variance of a numpy array (numpy default `ddof = 0`). -/
def npVar (xs : List ℝ) : ℝ :=
  ((xs.map fun x => (x - npMean xs) ^ 2).sum) / xs.length

/-- Standard deviation of a numpy array, `arr.std()`. -/
def npStd (xs : List ℝ) : ℝ :=
  Real.sqrt (npVar xs)

/-- Bias field correction filter parameters (`BiasFieldCorrectorParams`):
a mask image (0 = background, 1 = mask). -/
structure BiasFieldCorrectorParams where
  mask : Image

/-- Configuration of the `BiasFieldCorrector` filter, set at construction. -/
structure BiasFieldCorrector where
  shrink_factor : ℚ
  convergence_threshold : ℚ
  max_iterations : List ℤ
  fullwidth_at_halfmax : ℚ
  filter_noise : ℚ
  histogram_bins : ℤ
  control_points : List ℤ
  spline_order : ℤ

/-- Modelled from the spec: the external routine `sitk.OtsuThreshold(image,
inside, outside, bins)` produces a default mask by auto-thresholding the
image (threshold stand-in: the mean intensity); fresh image, metadata
preserved, integer mask pixels. Its numeric content does not influence any
claim. -/
def OtsuThreshold (image : Image) (inside outside : ℝ) (bins : ℤ) : Image :=
  ⟨image.uid + 1,
   image.data.map fun x => if x ≤ npMean image.data then inside else outside,
   image.meta, PixelType.uint8⟩

/-- Modelled from the spec: the external routine
`sitk.N4BiasFieldCorrection(...)` iteratively estimates and removes a
smooth multiplicative bias field; the numeric estimation is external and
modelled as the identity on the data.  It allocates a fresh output image
and propagates the spatial metadata of its input. -/
def N4BiasFieldCorrection (image mask : Image) (convergence_threshold : ℚ)
    (max_iterations : List ℤ) (fullwidth_at_halfmax filter_noise : ℚ)
    (histogram_bins : ℤ) (control_points : List ℤ) (spline_order : ℤ) : Image :=
  ⟨image.uid + 1, image.data, image.meta, image.pixelType⟩

/-- `BiasFieldCorrector.execute(image, params)`: chooses the mask (the
supplied one, else a default Otsu mask), then raises
`ValueError` when `shrink_factor > 1`, else delegates to the external N4
routine. -/
def BiasFieldCorrector.execute (self : BiasFieldCorrector) (image : Image)
    (params : Option BiasFieldCorrectorParams) : Except PyErr Image :=
  let mask := match params with
    | Option.some p => p.mask
    | Option.none => OtsuThreshold image 0 1 200
  if self.shrink_factor > 1 then
    Except.error (PyErr.valueError "shrinking is not supported yet")
  else
    Except.ok (N4BiasFieldCorrection image mask self.convergence_threshold
      self.max_iterations self.fullwidth_at_halfmax self.filter_noise
      self.histogram_bins self.control_points self.spline_order)

/-- `NormalizeZScore.execute(image)`: reads the voxel array, computes its
global mean and standard deviation, maps `x` to `(x - mean) / std`
(unguarded division: when `std = 0` numpy emits non-finite values but
raises no exception, idealized here by the total field division), builds a
fresh `float32` image from the result and copies the spatial metadata of
the input onto it. -/
def NormalizeZScore.execute (image : Image) : Except PyErr Image :=
  let img_arr := GetArrayFromImage image
  let mean := npMean img_arr
  let std := npStd img_arr
  let arr2 := img_arr.map fun x => (x - mean) / std
  let img_out := GetImageFromArray arr2 PixelType.float32 (image.uid + 1)
  let img_out := Image.CopyInformation img_out image
  Except.ok img_out

/-- Configuration of the `GradientAnisotropicDiffusion` filter. -/
structure GradientAnisotropicDiffusion where
  time_step : ℚ
  conductance : ℤ
  conductance_scaling_update_interval : ℤ
  no_iterations : ℤ

/-- Modelled from the spec: the external routine
`sitk.GradientAnisotropicDiffusion(...)` smooths while preserving edges by
iterative conductance-weighted diffusion; the PDE solving is external and
modelled as the identity on the data.  Fresh output image, metadata
preserved. -/
def sitkGradientAnisotropicDiffusion (image : Image) (time_step : ℚ)
    (conductance interval iterations : ℤ) : Image :=
  ⟨image.uid + 1, image.data, image.meta, image.pixelType⟩

/-- `GradientAnisotropicDiffusion.execute(image)`: casts the image to
`float32` first, then delegates to the external diffusion routine. -/
def GradientAnisotropicDiffusion.execute (self : GradientAnisotropicDiffusion)
    (image : Image) : Except PyErr Image :=
  Except.ok (sitkGradientAnisotropicDiffusion (sitkCast image PixelType.float32)
    self.time_step self.conductance self.conductance_scaling_update_interval
    self.no_iterations)

/-- Configuration of the `Gaussian` filter. -/
structure Gaussian where
  sigma : ℤ

/-- Modelled from the spec: the external recursive Gaussian smoothing
(`sitk.SmoothingRecursiveGaussianImageFilter` with the configured sigma);
numeric smoothing external, modelled as identity on the data.  Fresh output
image, metadata preserved. -/
def SmoothingRecursiveGaussian (image : Image) (sigma : ℤ) : Image :=
  ⟨image.uid + 1, image.data, image.meta, image.pixelType⟩

/-- `Gaussian.execute(image)`: delegates to the recursive Gaussian filter. -/
def Gaussian.execute (self : Gaussian) (image : Image) : Except PyErr Image :=
  Except.ok (SmoothingRecursiveGaussian image self.sigma)

/-- Configuration of the `Median` filter. -/
structure Median where
  radius : ℤ

/-- Modelled from the spec: the external median filter
(`sitk.MedianImageFilter` with the configured radius); numeric filtering
external, modelled as identity on the data.  Fresh output image, metadata
preserved. -/
def MedianImageFilter (image : Image) (radius : ℤ) : Image :=
  ⟨image.uid + 1, image.data, image.meta, image.pixelType⟩

/-- `Median.execute(image)`: delegates to the median filter. -/
def Median.execute (self : Median) (image : Image) : Except PyErr Image :=
  Except.ok (MedianImageFilter image self.radius)

/-- Configuration of the `RescaleIntensity` filter. -/
structure RescaleIntensity where
  min_intensity : ℚ
  max_intensity : ℚ

/-- Minimum entry of a voxel array (0 for the empty array). -/
def listMin : List ℝ → ℝ
  | [] => 0
  | x :: xs => xs.foldl min x

/-- Maximum entry of a voxel array (0 for the empty array). -/
def listMax : List ℝ → ℝ
  | [] => 0
  | x :: xs => xs.foldl max x

/-- Modelled from the spec: the external routine
`sitk.RescaleIntensity(image, outMin, outMax)` linearly rescales the voxel
intensity range onto the interval from `outMin` to `outMax`, and fails when
`outMin > outMax` (inverted bounds).  Fresh output image, metadata
preserved. -/
def sitkRescaleIntensity (image : Image) (outMin outMax : ℚ) : Except PyErr Image :=
  if outMin > outMax then
    Except.error
      (PyErr.runtimeError "Minimum output value cannot be greater than Maximum output value")
  else
    Except.ok ⟨image.uid + 1,
      image.data.map fun x =>
        (outMin : ℝ) +
          (x - listMin image.data) * ((outMax : ℝ) - (outMin : ℝ)) /
            (listMax image.data - listMin image.data),
      image.meta, image.pixelType⟩

/-- `RescaleIntensity.execute(image)`: forwards `min_intensity` and
`max_intensity` unchanged to the external rescale routine, with no check of
its own. -/
def RescaleIntensity.execute (self : RescaleIntensity) (image : Image) :
    Except PyErr Image :=
  sitkRescaleIntensity image self.min_intensity self.max_intensity

/-- Histogram matching filter parameters (`HistogramMatcherParams`).  The
source annotates `reference_image` as an image but Python lets callers
store `None` there; the option makes that case expressible. -/
structure HistogramMatcherParams where
  reference_image : Option Image

/-- Configuration of the `HistogramMatcher` filter. -/
structure HistogramMatcher where
  histogram_levels : ℤ
  match_points : ℤ
  threshold_mean_intensity : Bool

/-- Modelled from the spec: the external routine `sitk.HistogramMatching`
matches the intensity histogram of the input to that of the reference; the
transfer function is external and modelled as identity on the data.  The
Python binding requires an image where the reference goes and raises
`TypeError` when handed `None`.  Fresh output image, metadata preserved. -/
def sitkHistogramMatching (image : Image) (reference : Option Image)
    (levels points : ℤ) (threshold : Bool) : Except PyErr Image :=
  match reference with
  | Option.none =>
      Except.error (PyErr.typeError "argument of type Image expected, got None")
  | Option.some r =>
      Except.ok ⟨image.uid + 1, image.data, image.meta, image.pixelType⟩

/-- `HistogramMatcher.execute(image, params)`: raises `ValueError` when no
parameter object is supplied, else forwards `params.reference_image` and
the configuration to the external matching routine. -/
def HistogramMatcher.execute (self : HistogramMatcher) (image : Image)
    (params : Option HistogramMatcherParams) : Except PyErr Image :=
  match params with
  | Option.none =>
      Except.error (PyErr.valueError "Parameter with reference image is required")
  | Option.some p =>
      sitkHistogramMatching image p.reference_image self.histogram_levels
        self.match_points self.threshold_mean_intensity

/-- Modelled from the spec: the medpy `IntensityRangeStandardization`
landmark model; after (re)fitting it is fully determined by the training
set it was fitted on, so it is represented by that set. -/
structure IRSModel where
  trainedOn : List (List ℝ)

/-- The freshly constructed, unfitted `IntensityRangeStandardization()`. -/
def IntensityRangeStandardization : IRSModel :=
  ⟨[]⟩

/-- Modelled from the spec: `irs.train(images)` refits the landmark model
on the entire given training set. -/
def IRSModel.train (m : IRSModel) (images : List (List ℝ)) : IRSModel :=
  ⟨images⟩

/-- Modelled from the spec: `irs.transform(arr)` maps the intensities of
the array onto the common reference scale of the fitted model; a
deterministic function of model and array whose numeric content is
external, modelled as the identity. -/
def IRSModel.transform (m : IRSModel) (arr : List ℝ) : List ℝ :=
  arr

/-- A pickle blob: the faithful serialization `pickle.dump` writes. -/
structure Blob where
  payload : IRSModel

/-- `pickle.dump(m, f)` serializes the model into the blob written to `f`. -/
def pickleDump (m : IRSModel) : Blob :=
  ⟨m⟩

/-- The mode a Python file object was opened with: `open(p)` or
`open(p, "r")` give a text-mode file, `open(p, "wb")` or `open(p, "rb")` a
binary-mode one. -/
inductive FileMode where
  | text
  | binary
  deriving DecidableEq, Repr

/-- The file system visible to the IRS filter: paths mapped to the pickle
blobs stored at them (most recent write first). -/
abbrev FileSys := List (String × Blob)

/-- Reading the blob stored at a path, if any. -/
def fsRead (fs : FileSys) (path : String) : Option Blob :=
  fs.lookup path

/-- `open(path, "wb")` followed by a dump: stores the blob at the path. -/
def fsWrite (fs : FileSys) (path : String) (b : Blob) : FileSys :=
  (path, b) :: fs

/-- `pickle.load(f)` on a file opened in the given mode: pickle reads
bytes, so on a text-mode file it raises `TypeError` (Python 3 semantics);
on a binary-mode file it restores the serialized model. -/
def pickleLoad (mode : FileMode) (b : Blob) : Except PyErr IRSModel :=
  match mode with
  | FileMode.text => Except.error (PyErr.typeError "a bytes-like object is required, not str")
  | FileMode.binary => Except.ok b.payload

/-- State of the `IRS` filter: configured model path, mode flag, the
accumulated training images and the current model object. -/
structure IRS where
  model_path : String
  train : Bool
  train_images : List (List ℝ)
  irs : IRSModel

/-- `IRS.__init__(model_path, train)`: in train mode starts with an empty
training set and a fresh unfitted model; otherwise it loads the persisted
model, opening the file with `open(model_path, "r")` — a TEXT-mode handle —
and calling `pickle.load` on it. -/
def IRS.init (model_path : String) (train : Bool) (fs : FileSys) :
    Except PyErr IRS :=
  if train then
    Except.ok ⟨model_path, train, [], IntensityRangeStandardization⟩
  else
    match fsRead fs model_path with
    | Option.none => Except.error (PyErr.fileNotFoundError model_path)
    | Option.some b =>
        match pickleLoad FileMode.text b with
        | Except.error e => Except.error e
        | Except.ok m => Except.ok ⟨model_path, train, [], m⟩

/-- `IRS.execute(image)`: in train mode appends the voxel array to the
training set, refits the model on the entire accumulated set, pickles the
refit model to the model path (binary mode) and returns the input image
itself; in apply mode it transforms the voxel array with the loaded model
and attempts to wrap the result in `sitk.Image(arr, sitk.sitkUInt8)` — a
call that raises `TypeError`, since SimpleITK has no from-array `Image`
constructor, so the apply branch never yields an output image. -/
def IRS.execute (self : IRS) (fs : FileSys) (image : Image) :
    IRS × FileSys × Except PyErr Image :=
  let img_array := GetArrayFromImage image
  if self.train then
    let ts := self.train_images ++ [img_array]
    let irs2 := self.irs.train ts
    let fs2 := fsWrite fs self.model_path (pickleDump irs2)
    (⟨self.model_path, self.train, ts, irs2⟩, fs2, Except.ok image)
  else
    (self, fs, sitkImage (self.irs.transform img_array) PixelType.uint8)

/-- Configuration of the `Bilateral` filter. -/
structure Bilateral where
  domainSigma : ℚ
  rangeSigma : ℚ

/-- Modelled from the spec: the external routine `sitk.Bilateral(image,
domainSigma, rangeSigma)`, edge-preserving smoothing weighting by spatial
and intensity distance; numeric content external, modelled as identity on
the data.  Fresh output image, metadata preserved. -/
def sitkBilateral (image : Image) (domainSigma rangeSigma : ℚ) : Image :=
  ⟨image.uid + 1, image.data, image.meta, image.pixelType⟩

/-- `Bilateral.execute(image)`: delegates to the external bilateral
filter. -/
def Bilateral.execute (self : Bilateral) (image : Image) : Except PyErr Image :=
  Except.ok (sitkBilateral image self.domainSigma self.rangeSigma)

/-- The filter catalog: one variant per filter class of the source, each
carrying its construction-time state. -/
inductive IFilter where
  | biasFieldCorrector (cfg : BiasFieldCorrector)
  | gradientAnisotropicDiffusion (cfg : GradientAnisotropicDiffusion)
  | normalizeZScore
  | gaussian (cfg : Gaussian)
  | median (cfg : Median)
  | rescaleIntensity (cfg : RescaleIntensity)
  | histogramMatcher (cfg : HistogramMatcher)
  | irs (st : IRS)
  | bilateral (cfg : Bilateral)

/-- The per-call parameter object handed to an `execute` call: absent, a
mask (bias field correction) or a reference (histogram matching). -/
inductive IFilterParams where
  | noParams
  | biasField (p : BiasFieldCorrectorParams)
  | histogram (p : HistogramMatcherParams)

/-- The mask parameter an `IFilterParams` value carries, if any. -/
def IFilterParams.maskOf : IFilterParams → Option BiasFieldCorrectorParams
  | IFilterParams.biasField p => Option.some p
  | _ => Option.none

/-- The histogram-matching parameter an `IFilterParams` value carries, if
any. -/
def IFilterParams.refOf : IFilterParams → Option HistogramMatcherParams
  | IFilterParams.histogram p => Option.some p
  | _ => Option.none

/-- The uniform catalog interface `filter.execute(image, params)`: runs
the filter, returning its (possibly updated) state, the (possibly updated)
file system, and the outcome.  Only the IRS filter touches either kind of
state. -/
def IFilter.apply : IFilter → IFilterParams → FileSys → Image →
    IFilter × FileSys × Except PyErr Image
  | IFilter.biasFieldCorrector cfg, ps, fs, image =>
      (IFilter.biasFieldCorrector cfg, fs, cfg.execute image ps.maskOf)
  | IFilter.gradientAnisotropicDiffusion cfg, _, fs, image =>
      (IFilter.gradientAnisotropicDiffusion cfg, fs, cfg.execute image)
  | IFilter.normalizeZScore, _, fs, image =>
      (IFilter.normalizeZScore, fs, NormalizeZScore.execute image)
  | IFilter.gaussian cfg, _, fs, image =>
      (IFilter.gaussian cfg, fs, cfg.execute image)
  | IFilter.median cfg, _, fs, image =>
      (IFilter.median cfg, fs, cfg.execute image)
  | IFilter.rescaleIntensity cfg, _, fs, image =>
      (IFilter.rescaleIntensity cfg, fs, cfg.execute image)
  | IFilter.histogramMatcher cfg, ps, fs, image =>
      (IFilter.histogramMatcher cfg, fs, cfg.execute image ps.refOf)
  | IFilter.irs st, _, fs, image =>
      let r := st.execute fs image
      (IFilter.irs r.1, r.2.1, r.2.2)
  | IFilter.bilateral cfg, _, fs, image =>
      (IFilter.bilateral cfg, fs, cfg.execute image)

/-- Whether a catalog entry is the IRS filter in training mode (the one
pass-through case of the catalog). -/
def IFilter.isTrainIRS : IFilter → Bool
  | IFilter.irs st => st.train
  | _ => false

/-! Concrete values used by the closed theorems below. -/

/-- A non-default spatial metadata record (shifted origin). -/
def metaShift : SpatialInfo :=
  ⟨[1, 2, 3], [1, 1, 1], [1, 0, 0, 0, 1, 0, 0, 0, 1]⟩

/-- An image with no voxels and default metadata. -/
def imgEmpty : Image :=
  ⟨0, [], defaultSpatialInfo, PixelType.native⟩

/-- A constant image: two voxels of intensity 5, so its standard deviation
is zero. -/
def imgConst : Image :=
  ⟨0, [5, 5], defaultSpatialInfo, PixelType.native⟩

/-- An image with voxels of intensity minus one and one (mean 0, standard
deviation 1) and non-default metadata. -/
def imgPM : Image :=
  ⟨0, [-1, 1], metaShift, PixelType.native⟩

/-- The empty image after z-score normalization. -/
def imgNormEmpty : Image :=
  ⟨1, [], defaultSpatialInfo, PixelType.float32⟩

/-- An image with no voxels and shifted metadata. -/
def imgShifted : Image :=
  ⟨0, [], metaShift, PixelType.native⟩

/-- A rescale filter constructed with inverted bounds. -/
def rescaleCfg21 : RescaleIntensity :=
  ⟨2, 1⟩

/-- A bias field corrector with shrink factor 2 and otherwise the default
configuration of the source constructor. -/
def bfcCfg2 : BiasFieldCorrector :=
  ⟨2, 1 / 1000, [50, 50, 50, 50], 15 / 100, 1 / 100, 200, [4, 4, 4], 3⟩

/-- An IRS filter instance in training mode at the default model path. -/
def irsTrainState : IRS :=
  ⟨"bin/mia-model/hmmModel.pkl", true, [], IntensityRangeStandardization⟩

/-- The file system after one training call on the empty image: the refit
model is pickled at the default model path. -/
def trainedFs : FileSys :=
  fsWrite [] "bin/mia-model/hmmModel.pkl"
    (pickleDump (IRSModel.train IntensityRangeStandardization [[]]))

/-! Evaluation lemmas for the sample statistics of the concrete images. -/

/-- Mean of the constant array. -/
theorem npMean_const : npMean [(5 : ℝ), 5] = 5 := by
  norm_num [npMean]

/-- Variance of the constant array. -/
theorem npVar_const : npVar [(5 : ℝ), 5] = 0 := by
  norm_num [npVar, npMean_const]

/-- Standard deviation of the constant array is zero. -/
theorem npStd_const : npStd [(5 : ℝ), 5] = 0 := by
  simp [npStd, npVar_const]

/-- Mean of the plus-minus-one array. -/
theorem npMean_pm : npMean [(-1 : ℝ), 1] = 0 := by
  norm_num [npMean]

/-- Variance of the plus-minus-one array. -/
theorem npVar_pm : npVar [(-1 : ℝ), 1] = 1 := by
  norm_num [npVar, npMean_pm]

/-- Standard deviation of the plus-minus-one array is one. -/
theorem npStd_pm : npStd [(-1 : ℝ), 1] = 1 := by
  simp [npStd, npVar_pm]

/-! Freshness of the output object of each stateless filter. -/

/-- A successful bias field correction yields a freshly allocated image. -/
theorem bfc_execute_ok_uid (cfg : BiasFieldCorrector) (image : Image)
    (params : Option BiasFieldCorrectorParams) (out : Image)
    (h : cfg.execute image params = Except.ok out) : out.uid = image.uid + 1 := by
  simp only [BiasFieldCorrector.execute] at h
  split at h
  · simp at h
  · simp only [Except.ok.injEq] at h
    subst h
    rfl

/-- A successful intensity rescale yields a freshly allocated image. -/
theorem rescale_execute_ok_uid (cfg : RescaleIntensity) (image out : Image)
    (h : cfg.execute image = Except.ok out) : out.uid = image.uid + 1 := by
  simp only [RescaleIntensity.execute, sitkRescaleIntensity] at h
  split at h
  · simp at h
  · simp only [Except.ok.injEq] at h
    subst h
    rfl

/-- A successful histogram match yields a freshly allocated image. -/
theorem hm_execute_ok_uid (cfg : HistogramMatcher) (image : Image)
    (params : Option HistogramMatcherParams) (out : Image)
    (h : cfg.execute image params = Except.ok out) : out.uid = image.uid + 1 := by
  cases params with
  | none => simp [HistogramMatcher.execute] at h
  | some p =>
      cases href : p.reference_image with
      | none => simp [HistogramMatcher.execute, sitkHistogramMatching, href] at h
      | some r =>
          simp only [HistogramMatcher.execute, sitkHistogramMatching, href,
            Except.ok.injEq] at h
          subst h
          rfl

/-! Metadata propagation of each filter that can produce an output. -/

/-- A successful bias field correction propagates the input metadata. -/
theorem bfc_execute_ok_meta (cfg : BiasFieldCorrector) (image : Image)
    (params : Option BiasFieldCorrectorParams) (out : Image)
    (h : cfg.execute image params = Except.ok out) : out.meta = image.meta := by
  simp only [BiasFieldCorrector.execute] at h
  split at h
  · simp at h
  · simp only [Except.ok.injEq] at h
    subst h
    rfl

/-- A successful intensity rescale propagates the input metadata. -/
theorem rescale_execute_ok_meta (cfg : RescaleIntensity) (image out : Image)
    (h : cfg.execute image = Except.ok out) : out.meta = image.meta := by
  simp only [RescaleIntensity.execute, sitkRescaleIntensity] at h
  split at h
  · simp at h
  · simp only [Except.ok.injEq] at h
    subst h
    rfl

/-- A successful histogram match propagates the input metadata. -/
theorem hm_execute_ok_meta (cfg : HistogramMatcher) (image : Image)
    (params : Option HistogramMatcherParams) (out : Image)
    (h : cfg.execute image params = Except.ok out) : out.meta = image.meta := by
  cases params with
  | none => simp [HistogramMatcher.execute] at h
  | some p =>
      cases href : p.reference_image with
      | none => simp [HistogramMatcher.execute, sitkHistogramMatching, href] at h
      | some r =>
          simp only [HistogramMatcher.execute, sitkHistogramMatching, href,
            Except.ok.injEq] at h
          subst h
          rfl

/-! The claims. -/

/-- C1: the claim says that on an image whose intensities have zero
standard deviation `NormalizeZScore.execute` fails with an
InvalidNumericInput-style error, the division being guarded.  The code has
no guard: on the constant image `imgConst` the standard deviation is zero
and `execute` still returns a result image (numpy performs the division,
emitting non-finite values, and raises nothing). -/
theorem normalize_zero_std_no_error :
    npStd (GetArrayFromImage imgConst) = 0 ∧
      ∃ out, NormalizeZScore.execute imgConst = Except.ok out :=
  ⟨npStd_const, ⟨_, rfl⟩⟩

/-- C2: executing a `RescaleIntensity` filter constructed with
`min_intensity > max_intensity` fails, for every input image (the inverted
bound check lives in the wrapped rescale routine, to which the filter
forwards its bounds unchanged). -/
theorem rescale_min_gt_max_fails (cfg : RescaleIntensity) (image : Image)
    (h : cfg.min_intensity > cfg.max_intensity) :
    cfg.execute image = Except.error
      (PyErr.runtimeError "Minimum output value cannot be greater than Maximum output value") := by
  simp [RescaleIntensity.execute, sitkRescaleIntensity, h]

/-- Witness for C2 at the inverted bounds 2 > 1 on the empty image. -/
theorem rescale_min_gt_max_fails_witness :
    rescaleCfg21.min_intensity > rescaleCfg21.max_intensity ∧
      rescaleCfg21.execute imgEmpty = Except.error
        (PyErr.runtimeError "Minimum output value cannot be greater than Maximum output value") :=
  ⟨by norm_num [rescaleCfg21],
   rescale_min_gt_max_fails rescaleCfg21 imgEmpty (by norm_num [rescaleCfg21])⟩

/-- C3: no `execute` call mutates its input image (every operation the
source uses is out of place, so the embedding is a pure function of the
input), and the returned image is a fresh object — its identity differs
from the input's — except for the IRS filter in training mode, which
returns the very input image. -/
theorem filter_apply_no_input_mutation (f : IFilter) (ps : IFilterParams)
    (fs : FileSys) (image out : Image)
    (h : (IFilter.apply f ps fs image).2.2 = Except.ok out) :
    (IFilter.isTrainIRS f = true → out = image) ∧
      (IFilter.isTrainIRS f = false → out.uid ≠ image.uid) := by
  cases f with
  | biasFieldCorrector cfg =>
      refine ⟨fun hT => by simp [IFilter.isTrainIRS] at hT, fun _ => ?_⟩
      simp only [IFilter.apply] at h
      have hu := bfc_execute_ok_uid cfg image ps.maskOf out h
      omega
  | gradientAnisotropicDiffusion cfg =>
      refine ⟨fun hT => by simp [IFilter.isTrainIRS] at hT, fun _ => ?_⟩
      simp only [IFilter.apply, GradientAnisotropicDiffusion.execute,
        sitkGradientAnisotropicDiffusion, sitkCast, Except.ok.injEq] at h
      subst h
      simp only [Image.uid]
      omega
  | normalizeZScore =>
      refine ⟨fun hT => by simp [IFilter.isTrainIRS] at hT, fun _ => ?_⟩
      simp only [IFilter.apply, NormalizeZScore.execute, GetImageFromArray,
        Image.CopyInformation, Except.ok.injEq] at h
      subst h
      simp
  | gaussian cfg =>
      refine ⟨fun hT => by simp [IFilter.isTrainIRS] at hT, fun _ => ?_⟩
      simp only [IFilter.apply, Gaussian.execute, SmoothingRecursiveGaussian,
        Except.ok.injEq] at h
      subst h
      simp
  | median cfg =>
      refine ⟨fun hT => by simp [IFilter.isTrainIRS] at hT, fun _ => ?_⟩
      simp only [IFilter.apply, Median.execute, MedianImageFilter,
        Except.ok.injEq] at h
      subst h
      simp
  | rescaleIntensity cfg =>
      refine ⟨fun hT => by simp [IFilter.isTrainIRS] at hT, fun _ => ?_⟩
      simp only [IFilter.apply] at h
      have hu := rescale_execute_ok_uid cfg image out h
      omega
  | histogramMatcher cfg =>
      refine ⟨fun hT => by simp [IFilter.isTrainIRS] at hT, fun _ => ?_⟩
      simp only [IFilter.apply] at h
      have hu := hm_execute_ok_uid cfg image ps.refOf out h
      omega
  | irs st =>
      by_cases hT : st.train = true
      · simp only [IFilter.apply, IRS.execute, hT, if_true] at h
        simp only [Except.ok.injEq] at h
        exact ⟨fun _ => h.symm, fun hF => by simp [IFilter.isTrainIRS, hT] at hF⟩
      · have hF : st.train = false := by simpa using hT
        refine ⟨fun hTT => by simp [IFilter.isTrainIRS, hF] at hTT, fun _ => ?_⟩
        simp [IFilter.apply, IRS.execute, hF, sitkImage] at h
  | bilateral cfg =>
      refine ⟨fun hT => by simp [IFilter.isTrainIRS] at hT, fun _ => ?_⟩
      simp only [IFilter.apply, Bilateral.execute, sitkBilateral,
        Except.ok.injEq] at h
      subst h
      simp

/-- Witness for C3 at the z-score filter on the empty image: the output is
a fresh object. -/
theorem filter_apply_no_input_mutation_witness :
    (IFilter.apply IFilter.normalizeZScore IFilterParams.noParams [] imgEmpty).2.2 =
      Except.ok imgNormEmpty ∧ imgNormEmpty.uid ≠ imgEmpty.uid :=
  ⟨rfl,
   (filter_apply_no_input_mutation IFilter.normalizeZScore IFilterParams.noParams
      [] imgEmpty imgNormEmpty rfl).2 rfl⟩

/-- C4: every filter's execute propagates the input image's spatial
metadata (origin, spacing, direction) unchanged to the output image:
whenever an execute call produces an output image at all, that image
carries the metadata of the input.  NormalizeZScore copies it explicitly,
the wrapped sitk routines preserve it, train-mode IRS returns the input
itself, and the apply-mode IRS branch never produces an output image (its
`sitk.Image(arr, pixel_id)` call raises `TypeError`). -/
theorem filter_apply_preserves_metadata (f : IFilter) (ps : IFilterParams)
    (fs : FileSys) (image out : Image)
    (h : (IFilter.apply f ps fs image).2.2 = Except.ok out) :
    out.meta = image.meta := by
  cases f with
  | biasFieldCorrector cfg =>
      simp only [IFilter.apply] at h
      exact bfc_execute_ok_meta cfg image ps.maskOf out h
  | gradientAnisotropicDiffusion cfg =>
      simp only [IFilter.apply, GradientAnisotropicDiffusion.execute,
        sitkGradientAnisotropicDiffusion, sitkCast, Except.ok.injEq] at h
      subst h
      rfl
  | normalizeZScore =>
      simp only [IFilter.apply, NormalizeZScore.execute, GetImageFromArray,
        Image.CopyInformation, Except.ok.injEq] at h
      subst h
      rfl
  | gaussian cfg =>
      simp only [IFilter.apply, Gaussian.execute, SmoothingRecursiveGaussian,
        Except.ok.injEq] at h
      subst h
      rfl
  | median cfg =>
      simp only [IFilter.apply, Median.execute, MedianImageFilter,
        Except.ok.injEq] at h
      subst h
      rfl
  | rescaleIntensity cfg =>
      simp only [IFilter.apply] at h
      exact rescale_execute_ok_meta cfg image out h
  | histogramMatcher cfg =>
      simp only [IFilter.apply] at h
      exact hm_execute_ok_meta cfg image ps.refOf out h
  | irs st =>
      by_cases hT : st.train = true
      · simp only [IFilter.apply, IRS.execute, hT, if_true, Except.ok.injEq] at h
        subst h
        rfl
      · have hF : st.train = false := by simpa using hT
        simp [IFilter.apply, IRS.execute, hF, sitkImage] at h
  | bilateral cfg =>
      simp only [IFilter.apply, Bilateral.execute, sitkBilateral,
        Except.ok.injEq] at h
      subst h
      rfl

/-- Witness for C4 at the z-score filter on an empty image with shifted
metadata: the shifted origin is carried onto the output. -/
theorem filter_apply_preserves_metadata_witness :
    (IFilter.apply IFilter.normalizeZScore IFilterParams.noParams [] imgShifted).2.2 =
      Except.ok ⟨1, [], metaShift, PixelType.float32⟩ ∧
      (⟨1, [], metaShift, PixelType.float32⟩ : Image).meta = imgShifted.meta :=
  ⟨rfl,
   filter_apply_preserves_metadata IFilter.normalizeZScore IFilterParams.noParams
     [] imgShifted ⟨1, [], metaShift, PixelType.float32⟩ rfl⟩

/-- C5: executing a `BiasFieldCorrector` whose shrink factor exceeds one
raises the not-supported error, for every image and independently of
whether a mask parameter is supplied. -/
theorem bias_shrink_gt_one_fails (cfg : BiasFieldCorrector) (image : Image)
    (params : Option BiasFieldCorrectorParams)
    (h : cfg.shrink_factor > 1) :
    cfg.execute image params =
      Except.error (PyErr.valueError "shrinking is not supported yet") := by
  simp [BiasFieldCorrector.execute, h]

/-- Witness for C5 at shrink factor 2 on the empty image with no mask. -/
theorem bias_shrink_gt_one_fails_witness :
    bfcCfg2.shrink_factor > 1 ∧
      bfcCfg2.execute imgEmpty Option.none =
        Except.error (PyErr.valueError "shrinking is not supported yet") :=
  ⟨by norm_num [bfcCfg2],
   bias_shrink_gt_one_fails bfcCfg2 imgEmpty Option.none (by norm_num [bfcCfg2])⟩

/-- C6: executing a `HistogramMatcher` with no parameter object raises the
missing-parameter error for every input image, before any histogram
matching is attempted. -/
theorem histogram_matcher_requires_params (cfg : HistogramMatcher) (image : Image) :
    cfg.execute image Option.none =
      Except.error (PyErr.valueError "Parameter with reference image is required") :=
  rfl

/-- C7: on any image whose standard deviation is non-zero, z-score
normalization returns exactly the image whose voxels are
`(x - mean) / std`, marked as 32-bit float, with the spatial metadata of
the input copied onto the (freshly allocated) output. -/
theorem normalize_zscore_correct (image : Image)
    (h : npStd (GetArrayFromImage image) ≠ 0) :
    NormalizeZScore.execute image = Except.ok
      ⟨image.uid + 1,
       image.data.map fun x =>
         (x - npMean image.data) / npStd image.data,
       image.meta, PixelType.float32⟩ :=
  rfl

/-- Witness for C7 at the two-voxel image with intensities minus one and
one: mean 0 and standard deviation 1, so the data is returned unchanged,
now as float32, with the shifted metadata of the input preserved. -/
theorem normalize_zscore_correct_witness :
    npStd (GetArrayFromImage imgPM) ≠ 0 ∧
      NormalizeZScore.execute imgPM =
        Except.ok ⟨1, [-1, 1], metaShift, PixelType.float32⟩ := by
  have hstd : npStd (GetArrayFromImage imgPM) ≠ 0 := by
    simp only [GetArrayFromImage, imgPM, npStd_pm]
    norm_num
  refine ⟨hstd, ?_⟩
  rw [normalize_zscore_correct imgPM hstd]
  simp only [imgPM, List.map_cons, List.map_nil, npMean_pm, npStd_pm]
  norm_num

/-- C8: in training mode every `IRS.execute` call appends the voxel array
of the input to the accumulated training set, refits the model on the
entire accumulated set, pickles the refit model at the configured model
path, and returns the input image unchanged. -/
theorem irs_train_execute (st : IRS) (fs : FileSys) (image : Image)
    (h : st.train = true) :
    st.execute fs image =
      (⟨st.model_path, st.train,
        st.train_images ++ [GetArrayFromImage image],
        IRSModel.train st.irs (st.train_images ++ [GetArrayFromImage image])⟩,
       fsWrite fs st.model_path
         (pickleDump (IRSModel.train st.irs
           (st.train_images ++ [GetArrayFromImage image]))),
       Except.ok image) := by
  simp [IRS.execute, h]

/-- Witness for C8: a first training call on the empty image stores its
array, refits on the singleton set, writes the pickle and passes the image
through. -/
theorem irs_train_execute_witness :
    irsTrainState.train = true ∧
      irsTrainState.execute [] imgEmpty =
        (⟨"bin/mia-model/hmmModel.pkl", true, [[]], ⟨[[]]⟩⟩,
         [("bin/mia-model/hmmModel.pkl", ⟨⟨[[]]⟩⟩)], Except.ok imgEmpty) :=
  ⟨rfl, by rw [irs_train_execute irsTrainState [] imgEmpty rfl]; rfl⟩

/-- C9: the claim says the model persisted by training is loadable by a
new apply-mode IRS instance whose transforms then match the pre-persist
ones.  In the code the training call writes the pickle in binary mode but
the apply-mode constructor opens the model file in TEXT mode, and
`pickle.load` on a text-mode file raises `TypeError`, so on a file system
that does hold the persisted model the apply-mode construction fails and
no round trip ever happens. -/
theorem irs_persisted_model_not_loadable :
    fsRead trainedFs "bin/mia-model/hmmModel.pkl" =
      Option.some (pickleDump (IRSModel.train IntensityRangeStandardization [[]])) ∧
      IRS.init "bin/mia-model/hmmModel.pkl" false trainedFs =
        Except.error (PyErr.typeError "a bytes-like object is required, not str") :=
  ⟨rfl, rfl⟩

/-- C10: the histogram matcher rejects only a missing parameter object: a
parameter object whose reference image is absent is forwarded as-is to the
wrapped matching routine (first conjunct, for every parameter object), and
in particular the missing-parameter error is not raised for an absent
reference (second conjunct). -/
theorem histogram_matcher_forwards_reference (cfg : HistogramMatcher)
    (image : Image) (p : HistogramMatcherParams) :
    cfg.execute image (Option.some p) =
      sitkHistogramMatching image p.reference_image cfg.histogram_levels
        cfg.match_points cfg.threshold_mean_intensity ∧
      cfg.execute image (Option.some ⟨Option.none⟩) ≠
        Except.error (PyErr.valueError "Parameter with reference image is required") := by
  refine ⟨rfl, ?_⟩
  simp [HistogramMatcher.execute, sitkHistogramMatching]

end
